import Mathlib

/-!
Verification of the `supercow` ownership container (src/lib.rs).

The container holds one of three backings (Owned, Borrowed, Shared) and
dereferences through cached address metadata: `ptr_mask` and
`ptr_displacement` are set so that
`target = (self_address &&& ptr_mask) + ptr_displacement`.

The embedding models a flat 64-bit address space.  A `Memory V` assigns a
value of the target type `V` to every address and carries a bump
allocator (`next`); every address handed out by the allocator is at least
`next`, and all live data sits below `next`.  A container struct occupies
`sizeOfSelf` bytes at its own address; an inline owned value occupies the
slot at offset `ownedOff` inside the struct, so placing or moving the
struct writes that slot.
-/

/-- Word size of the modelled 64-bit target (`usize::MAX + 1`). -/
def USIZE : Nat := 2 ^ 64

/-- Layout constant standing for `mem::size_of::<Supercow<..>>()`. -/
def sizeOfSelf : Nat := 32

/-- Layout constant standing for `offsetof(Supercow, state.Owned.0)`, the
byte offset of the inline owned value inside the container struct. -/
def ownedOff : Nat := 16

/-- Address of the static placeholder produced by
`SafeBorrow::borrow_replacement` for external-borrow types
(`slice::from_raw_parts(1 as usize as *const B, 0)`, the static `""`). -/
def placeholderAddr : Nat := 1

/-- Abstract memory: the value stored at every address, plus a bump
allocator frontier.  Fresh allocations are made at `next` and above. -/
structure Memory (V : Type) where
  data : Nat → V
  next : Nat

/-- Store `v` at address `a`. -/
def Memory.write {V : Type} (m : Memory V) (a : Nat) (v : V) : Memory V :=
  ⟨fun x => if x = a then v else m.data x, m.next⟩

/-- Allocate a fresh cell holding `v`; returns the new memory and the
address of the cell. -/
def Memory.alloc {V : Type} (m : Memory V) (v : V) : Memory V × Nat :=
  (⟨fun x => if x = m.next then v else m.data x, m.next + 1⟩, m.next)

/-- How the `OWNED` type parameter implements `Borrow<BORROWED>`: either
the borrow is the inline value itself (`u32 : Borrow<u32>`), or it points
into an external heap buffer owned by the value (`String : Borrow<str>`).
This is the distinction `SafeBorrow` draws: inline borrows are pure
pointer arithmetic on self, external ones need a placeholder. -/
inductive BorrowStyle where
  | inlineB
  | externB
deriving DecidableEq

/-- A value of the `OWNED` type parameter.  `inlineV v` is a value whose
borrow is its own storage (holding `v`); `heapV buf` is a value owning an
external buffer at address `buf` (the borrowed target lives there). -/
inductive OwnedVal (V : Type) where
  | inlineV (v : V)
  | heapV (buf : Nat)
deriving DecidableEq

/-- The tagged state: `enum SupercowData { Owned, Borrowed, Shared }`.
A Borrowed state holds the address of the referent; a Shared state holds
the stable address returned by the capability wrapper `const_deref`. -/
inductive SupercowData (V : Type) where
  | Owned (o : OwnedVal V)
  | Borrowed (r : Nat)
  | Shared (s : Nat)
deriving DecidableEq

/-- The container struct, fields in source order: `ptr_displacement`,
`ptr_mask`, `state`. -/
structure Supercow (V : Type) where
  ptr_displacement : Nat
  ptr_mask : Nat
  state : SupercowData V
deriving DecidableEq

/-- Rust `Borrow::borrow` on the owned value of a container placed at
`selfAddr`: an inline value borrows its slot inside the struct, a
heap-owning value borrows its external buffer. -/
def OwnedVal.borrowAddr {V : Type} (o : OwnedVal V) (selfAddr : Nat) : Nat :=
  match o with
  | .inlineV _ => selfAddr + ownedOff
  | .heapV buf => buf

/-- The branchy target address: the `match` in `set_ptr`
(`Owned => r.borrow(), Borrowed => r, Shared => s.const_deref()`). -/
def SupercowData.targetAddr {V : Type} (s : SupercowData V) (selfAddr : Nat) : Nat :=
  match s with
  | .Owned o => o.borrowAddr selfAddr
  | .Borrowed r => r
  | .Shared sh => sh

/-- The value the current state designates: the inline owned value, the
contents of the owned buffer, the Borrowed referent, or the value behind
the Shared wrapper.  Independent of where the container sits. -/
def SupercowData.value {V : Type} (m : Memory V) (s : SupercowData V) : V :=
  match s with
  | .Owned (.inlineV v) => v
  | .Owned (.heapV buf) => m.data buf
  | .Borrowed r => m.data r
  | .Shared sh => m.data sh

/-- True exactly for an Owned state whose value is stored inline. -/
def SupercowData.isInlineOwned {V : Type} (s : SupercowData V) : Bool :=
  match s with
  | .Owned (.inlineV _) => true
  | _ => false

/-- True exactly for an Owned state. -/
def SupercowData.isOwnedState {V : Type} (s : SupercowData V) : Bool :=
  match s with
  | .Owned _ => true
  | _ => false

/-- Address `addr` lies within the memory span of a container struct
placed at `selfAddr` (the test in `adjust_ptr`). -/
abbrev inSpan (selfAddr addr : Nat) : Prop :=
  selfAddr ≤ addr ∧ addr < selfAddr + sizeOfSelf

/-- Rust `Supercow::adjust_ptr`: if the recorded address falls inside the
struct itself, switch to relative addressing (mask all ones, displacement
rebased); otherwise use absolute addressing (mask zero). -/
def Supercow.adjust_ptr {V : Type} (c : Supercow V) (selfAddr : Nat) : Supercow V :=
  let rel : Prop := selfAddr ≤ c.ptr_displacement ∧ c.ptr_displacement < selfAddr + sizeOfSelf
  ⟨if rel then c.ptr_displacement - selfAddr else c.ptr_displacement,
   if rel then USIZE - 1 else 0,
   c.state⟩

/-- Rust `Supercow::set_ptr`: copy the state target address into
`ptr_displacement`, then `adjust_ptr`. -/
def Supercow.set_ptr {V : Type} (c : Supercow V) (selfAddr : Nat) : Supercow V :=
  Supercow.adjust_ptr ⟨c.state.targetAddr selfAddr, c.ptr_mask, c.state⟩ selfAddr

/-- The address computed by the branch-free `Deref::deref`:
`(self_address &&& ptr_mask) + ptr_displacement`, in `usize` arithmetic. -/
def Supercow.deref {V : Type} (c : Supercow V) (selfAddr : Nat) : Nat :=
  (Nat.land selfAddr c.ptr_mask + c.ptr_displacement) % USIZE

/-- The value read through `Deref::deref`. -/
def Supercow.derefVal {V : Type} (m : Memory V) (c : Supercow V) (selfAddr : Nat) : V :=
  m.data (c.deref selfAddr)

/-- Materializing the struct at `dstAddr` (placement, move, assignment):
an inline owned value is part of the struct, so it is written into the
slot at `dstAddr + ownedOff`.  The struct fields are copied verbatim. -/
def Supercow.materialize {V : Type} (m : Memory V) (c : Supercow V) (dstAddr : Nat) :
    Memory V × Supercow V :=
  match c.state with
  | .Owned (.inlineV v) => (m.write (dstAddr + ownedOff) v, c)
  | _ => (m, c)

/-- Rust `Supercow::from_data`, with the fresh container placed at
`selfAddr`: build the struct (mask 0, displacement uninitialized, here 0),
then `set_ptr`. -/
def Supercow.from_data {V : Type} (m : Memory V) (d : SupercowData V) (selfAddr : Nat) :
    Memory V × Supercow V :=
  let p := Supercow.materialize m ⟨0, 0, d⟩ selfAddr
  (p.1, p.2.set_ptr selfAddr)

/-- Rust `Supercow::owned`. -/
def Supercow.ownedCtor {V : Type} (m : Memory V) (o : OwnedVal V) (selfAddr : Nat) :
    Memory V × Supercow V :=
  Supercow.from_data m (.Owned o) selfAddr

/-- Rust `Supercow::borrowed`. -/
def Supercow.borrowedCtor {V : Type} (m : Memory V) (r : Nat) (selfAddr : Nat) :
    Memory V × Supercow V :=
  Supercow.from_data m (.Borrowed r) selfAddr

/-- Rust `Supercow::shared`. -/
def Supercow.sharedCtor {V : Type} (m : Memory V) (sh : Nat) (selfAddr : Nat) :
    Memory V × Supercow V :=
  Supercow.from_data m (.Shared sh) selfAddr

/-- Rust `BORROWED::to_owned`: produce a fresh `OWNED` holding a copy of
`v`.  For an external-borrow type this allocates a fresh buffer. -/
def toOwnedVal {V : Type} (style : BorrowStyle) (m : Memory V) (v : V) :
    Memory V × OwnedVal V :=
  match style with
  | .inlineB => (m, .inlineV v)
  | .externB =>
    let p := m.alloc v
    (p.1, .heapV p.2)

/-- The value held by an `OWNED` value. -/
def OwnedVal.value {V : Type} (m : Memory V) (o : OwnedVal V) : V :=
  match o with
  | .inlineV v => v
  | .heapV buf => m.data buf

/-- Rust `Clone` for the `OWNED` type: duplicates the value; a value
owning an external buffer allocates a fresh buffer with equal contents. -/
def OwnedVal.clone {V : Type} (m : Memory V) (o : OwnedVal V) : Memory V × OwnedVal V :=
  match o with
  | .inlineV v => (m, .inlineV v)
  | .heapV buf =>
    let p := m.alloc (m.data buf)
    (p.1, .heapV p.2)

/-- Rust `Clone for Supercow`: `ptr_mask` and `ptr_displacement` are
copied verbatim (no recomputation), the state is cloned, and the result
is placed at `dstAddr`. -/
def Supercow.clone {V : Type} (m : Memory V) (c : Supercow V) (dstAddr : Nat) :
    Memory V × Supercow V :=
  let p : Memory V × SupercowData V :=
    match c.state with
    | .Owned o =>
      let q := o.clone m
      (q.1, .Owned q.2)
    | .Borrowed r => (m, .Borrowed r)
    | .Shared sh => (m, .Shared sh)
  Supercow.materialize p.1 ⟨c.ptr_displacement, c.ptr_mask, p.2⟩ dstAddr

/-- Rust `Supercow::into_inner`: extract the owned value, converting from
the referent or the shared target when not already owned. -/
def Supercow.into_inner {V : Type} (style : BorrowStyle) (m : Memory V) (c : Supercow V) :
    Memory V × OwnedVal V :=
  match c.state with
  | .Owned o => (m, o)
  | .Borrowed r => toOwnedVal style m (m.data r)
  | .Shared sh => toOwnedVal style m (m.data sh)

/-- Rust `Supercow::take_ownership`: an Owned container is returned with
its metadata intact (placed at `dstAddr`); otherwise a fresh owned
container is built from a copy of the target. -/
def Supercow.take_ownership {V : Type} (style : BorrowStyle) (m : Memory V)
    (c : Supercow V) (dstAddr : Nat) : Memory V × Supercow V :=
  match c.state with
  | .Owned o => Supercow.materialize m ⟨c.ptr_displacement, c.ptr_mask, .Owned o⟩ dstAddr
  | .Borrowed r =>
    let p := toOwnedVal style m (m.data r)
    Supercow.from_data p.1 (.Owned p.2) dstAddr
  | .Shared sh =>
    let p := toOwnedVal style m (m.data sh)
    Supercow.from_data p.1 (.Owned p.2) dstAddr

/-- Rust `SafeBorrow::borrow_replacement`: identity for inline-borrow
types, the static placeholder for external-borrow types. -/
def borrow_replacement (style : BorrowStyle) (p : Nat) : Nat :=
  match style with
  | .inlineB => p
  | .externB => placeholderAddr

/-- The copy-on-write promotion at the start of `to_mut`
(`let new = match self.state ...; if let Some(new) = new { *self = new; }`).
The temporary `new` is built at `tmpAddr` and then assigned into the
container at `selfAddr`. -/
def Supercow.promote {V : Type} (style : BorrowStyle) (m : Memory V) (c : Supercow V)
    (selfAddr tmpAddr : Nat) : Memory V × Supercow V :=
  match c.state with
  | .Owned _ => (m, c)
  | .Borrowed r =>
    let p := toOwnedVal style m (m.data r)
    let q := Supercow.from_data p.1 (.Owned p.2) tmpAddr
    Supercow.materialize q.1 q.2 selfAddr
  | .Shared sh =>
    let p := toOwnedVal style m (m.data sh)
    let q := Supercow.from_data p.1 (.Owned p.2) tmpAddr
    Supercow.materialize q.1 q.2 selfAddr

/-- Rust `Supercow::to_mut` up to handing out the guard: promote, then
match on the state again — `none` models the `unreachable!()` arm — and
finally replace the displacement by the safe placeholder and
`adjust_ptr`. -/
def Supercow.to_mut {V : Type} (style : BorrowStyle) (m : Memory V) (c : Supercow V)
    (selfAddr tmpAddr : Nat) : Option (Memory V × Supercow V) :=
  let p := Supercow.promote style m c selfAddr tmpAddr
  match p.2.state with
  | .Owned _ =>
    some (p.1, Supercow.adjust_ptr
      ⟨borrow_replacement style p.2.ptr_displacement, p.2.ptr_mask, p.2.state⟩ selfAddr)
  | _ => none

/-- Total form of `to_mut` (the `unreachable!()` arm is proved dead in
`to_mut_eq_some_run`): identical to `to_mut` on every input. -/
def Supercow.to_mut_run {V : Type} (style : BorrowStyle) (m : Memory V) (c : Supercow V)
    (selfAddr tmpAddr : Nat) : Memory V × Supercow V :=
  let p := Supercow.promote style m c selfAddr tmpAddr
  (p.1, Supercow.adjust_ptr
    ⟨borrow_replacement style p.2.ptr_displacement, p.2.ptr_mask, p.2.state⟩ selfAddr)

/-- A mutation performed through the guard (`*guard = v`, `push_str`, …):
an inline owned value is overwritten in its slot; a buffer-owning value is
either mutated in place or reallocates its buffer. -/
def Supercow.guardSet {V : Type} (inPlace : Bool) (m : Memory V) (c : Supercow V)
    (selfAddr : Nat) (v : V) : Memory V × Supercow V :=
  match c.state with
  | .Owned (.inlineV _) =>
    (m.write (selfAddr + ownedOff) v, ⟨c.ptr_displacement, c.ptr_mask, .Owned (.inlineV v)⟩)
  | .Owned (.heapV buf) =>
    if inPlace then (m.write buf v, c)
    else
      let p := m.alloc v
      (p.1, ⟨c.ptr_displacement, c.ptr_mask, .Owned (.heapV p.2)⟩)
  | _ => (m, c)

/-- Rust `Drop for Ref`: on guard release the parent recomputes its
metadata with `set_ptr`. -/
def Supercow.guardDrop {V : Type} (c : Supercow V) (selfAddr : Nat) : Supercow V :=
  c.set_ptr selfAddr

/-- Rust `PartialEq for Supercow` with a container on the right:
`**self == **other`. -/
def Supercow.scEq {V : Type} [DecidableEq V] (m : Memory V) (a : Supercow V) (aAddr : Nat)
    (b : Supercow V) (bAddr : Nat) : Bool :=
  decide (Supercow.derefVal m a aAddr = Supercow.derefVal m b bAddr)

/-- Rust `Ord for Supercow`: `(**self).cmp(other)`, the right container
deref-coerced to the target. -/
def Supercow.scCmp {V : Type} (cmpV : V → V → Ordering) (m : Memory V) (a : Supercow V)
    (aAddr : Nat) (b : Supercow V) (bAddr : Nat) : Ordering :=
  cmpV (Supercow.derefVal m a aAddr) (Supercow.derefVal m b bAddr)

/-- Rust `Hash for Supercow`: `(**self).hash(h)`, the hasher abstracted
as a function of the target value. -/
def Supercow.scHash {V : Type} (h : V → Nat) (m : Memory V) (a : Supercow V)
    (aAddr : Nat) : Nat :=
  h (Supercow.derefVal m a aAddr)

/-- Rust formatting delegation (`deleg_fmt!`): `(**self).fmt(f)`, the
formatter abstracted as a function of the target value. -/
def Supercow.scFmt {V : Type} (f : V → String) (m : Memory V) (a : Supercow V)
    (aAddr : Nat) : String :=
  f (Supercow.derefVal m a aAddr)

/-- Rust `PartialEq<T> for Supercow` against any `T : Deref<Target =
BORROWED>`: the other side is modelled by the address its deref returns. -/
def Supercow.scEqAny {V : Type} [DecidableEq V] (m : Memory V) (a : Supercow V)
    (aAddr otherAddr : Nat) : Bool :=
  decide (Supercow.derefVal m a aAddr = m.data otherAddr)

/-- Rust `PartialOrd<T> for Supercow` against any `T : Deref<Target =
BORROWED>`: `(**self).partial_cmp(other)`. -/
def Supercow.scPartialCmpAny {V : Type} (pc : V → V → Option Ordering) (m : Memory V)
    (a : Supercow V) (aAddr otherAddr : Nat) : Option Ordering :=
  pc (Supercow.derefVal m a aAddr) (m.data otherAddr)

/-- Structural consistency of the cached metadata with the state target
at position `selfAddr`: exactly what `set_ptr` establishes — either
relative mode with the displacement rebased, or absolute mode with the
displacement equal to the target address. -/
abbrev Supercow.metaOk {V : Type} (c : Supercow V) (selfAddr : Nat) : Prop :=
  (c.ptr_mask = USIZE - 1 ∧ inSpan selfAddr (c.state.targetAddr selfAddr) ∧
    c.ptr_displacement = c.state.targetAddr selfAddr - selfAddr) ∨
  (c.ptr_mask = 0 ∧ ¬ inSpan selfAddr (c.state.targetAddr selfAddr) ∧
    c.ptr_displacement = c.state.targetAddr selfAddr)

/-- Memory agrees with the state: the inline slot of the struct holds the
inline owned value. -/
abbrev Supercow.memOk {V : Type} (m : Memory V) (c : Supercow V) (selfAddr : Nat) : Prop :=
  match c.state with
  | .Owned (.inlineV v) => m.data (selfAddr + ownedOff) = v
  | _ => True

/-- Address sanity: the struct and the target address fit in `usize`. -/
abbrev Supercow.addrOk {V : Type} (c : Supercow V) (selfAddr : Nat) : Prop :=
  selfAddr + sizeOfSelf ≤ USIZE ∧ c.state.targetAddr selfAddr < USIZE

/-- Physical placement of a state relative to a struct at `a`: a non
inline target (owned external buffer, Borrowed referent, Shared target)
lives outside the struct span and inside the address space. -/
abbrev SupercowData.wfPlace {V : Type} (s : SupercowData V) (a : Nat) : Prop :=
  match s with
  | .Owned (.inlineV _) => True
  | .Owned (.heapV buf) => ¬ inSpan a buf ∧ buf < USIZE
  | .Borrowed r => ¬ inSpan a r ∧ r < USIZE
  | .Shared sh => ¬ inSpan a sh ∧ sh < USIZE

theorem ownedOff_lt_sizeOfSelf : ownedOff < sizeOfSelf := by decide

theorem sizeOfSelf_pos : 0 < sizeOfSelf := by decide

/-- Helper: masking with all ones is the identity below `USIZE`. -/
theorem land_all_ones {a : Nat} (h : a < USIZE) : Nat.land a (USIZE - 1) = a := by
  have := Nat.and_pow_two_sub_one_of_lt_two_pow (n := 64) (x := a) h
  simpa [USIZE, Nat.land] using this

/-- The struct state is untouched by `adjust_ptr`. -/
theorem Supercow.adjust_ptr_state {V : Type} (c : Supercow V) (a : Nat) :
    (c.adjust_ptr a).state = c.state := rfl

/-- The struct state is untouched by `set_ptr`. -/
theorem Supercow.set_ptr_state {V : Type} (c : Supercow V) (a : Nat) :
    (c.set_ptr a).state = c.state := rfl

/-- The struct is passed through `materialize` unchanged. -/
theorem Supercow.materialize_snd {V : Type} (m : Memory V) (c : Supercow V) (d : Nat) :
    (Supercow.materialize m c d).2 = c := by
  unfold Supercow.materialize
  split <;> rfl

/-- `set_ptr` establishes the metadata invariant at the address it was
given. -/
theorem Supercow.set_ptr_metaOk {V : Type} (c : Supercow V) (a : Nat) :
    Supercow.metaOk (c.set_ptr a) a := by
  unfold Supercow.metaOk Supercow.set_ptr Supercow.adjust_ptr
  by_cases h : a ≤ c.state.targetAddr a ∧ c.state.targetAddr a < a + sizeOfSelf
  · exact Or.inl ⟨if_pos h, h, if_pos h⟩
  · exact Or.inr ⟨if_neg h, h, if_neg h⟩

/-- Under the metadata invariant the branch-free deref computes exactly
the branchy target address. -/
theorem Supercow.deref_eq_target {V : Type} (c : Supercow V) (a : Nat)
    (hm : c.metaOk a) (h1 : a + sizeOfSelf ≤ USIZE)
    (h2 : c.state.targetAddr a < USIZE) :
    c.deref a = c.state.targetAddr a := by
  have hsz : 0 < sizeOfSelf := sizeOfSelf_pos
  have ha : a < USIZE := by omega
  rcases hm with ⟨hk, hin, hd⟩ | ⟨hk, _, hd⟩
  · unfold Supercow.deref
    rw [hk, hd, land_all_ones ha]
    have hle : a ≤ c.state.targetAddr a := hin.1
    have : a + (c.state.targetAddr a - a) = c.state.targetAddr a := by omega
    rw [this, Nat.mod_eq_of_lt h2]
  · unfold Supercow.deref
    rw [hk, hd]
    have : Nat.land a 0 = 0 := Nat.and_zero a
    rw [this, Nat.zero_add, Nat.mod_eq_of_lt h2]

/-- Helper: the container built by `from_data` is `set_ptr` applied to
the freshly initialized struct. -/
theorem Supercow.from_data_snd {V : Type} (m : Memory V) (s : SupercowData V) (a : Nat) :
    (Supercow.from_data m s a).2 = Supercow.set_ptr ⟨0, 0, s⟩ a := by
  have h : (Supercow.from_data m s a).2
      = (Supercow.materialize m ⟨0, 0, s⟩ a).2.set_ptr a := rfl
  rw [h, Supercow.materialize_snd]

/-- Helper: the memory after `from_data` — only the inline slot is
written, and only for an inline Owned state. -/
theorem Supercow.from_data_fst {V : Type} (m : Memory V) (s : SupercowData V) (a : Nat) :
    (Supercow.from_data m s a).1 =
      match s with
      | .Owned (.inlineV v) => m.write (a + ownedOff) v
      | _ => m := by
  unfold Supercow.from_data Supercow.materialize
  rcases s with (v | buf) | r | sh <;> rfl

/-- Helper: the state target address fits in the address space. -/
theorem SupercowData.targetAddr_lt {V : Type} (s : SupercowData V) (a : Nat)
    (h1 : a + sizeOfSelf ≤ USIZE) (hp : s.wfPlace a) :
    s.targetAddr a < USIZE := by
  have hoff := ownedOff_lt_sizeOfSelf
  rcases s with (v | buf) | r | sh
  · show a + ownedOff < USIZE
    omega
  · exact hp.2
  · exact hp.2
  · exact hp.2

/-- Helper: right after construction, the branch-free deref address is
the branchy target address. -/
theorem Supercow.from_data_deref {V : Type} (m : Memory V) (s : SupercowData V) (a : Nat)
    (h1 : a + sizeOfSelf ≤ USIZE) (hp : s.wfPlace a) :
    (Supercow.from_data m s a).2.deref a = s.targetAddr a := by
  rw [Supercow.from_data_snd]
  have hm := Supercow.set_ptr_metaOk (⟨0, 0, s⟩ : Supercow V) a
  have h2 := SupercowData.targetAddr_lt s a h1 hp
  exact Supercow.deref_eq_target _ a hm h1 h2

/-- Helper: the value dereferenced right after construction is the value
the initial state designates. -/
theorem Supercow.from_data_derefVal {V : Type} (m : Memory V) (s : SupercowData V) (a : Nat)
    (h1 : a + sizeOfSelf ≤ USIZE) (hp : s.wfPlace a) :
    Supercow.derefVal (Supercow.from_data m s a).1 (Supercow.from_data m s a).2 a
      = s.value m := by
  unfold Supercow.derefVal
  rw [Supercow.from_data_deref m s a h1 hp, Supercow.from_data_fst]
  rcases s with (v | buf) | r | sh
  · show (m.write (a + ownedOff) v).data (a + ownedOff) = v
    simp [Memory.write]
  · rfl
  · rfl
  · rfl

/-- Helper: a value held by an Owned state. -/
theorem SupercowData.value_owned {V : Type} (m : Memory V) (o : OwnedVal V) :
    SupercowData.value m (.Owned o) = OwnedVal.value m o := by
  cases o <;> rfl

/-- C1: each of the three constructors yields a container whose
dereference returns a value equal to the input target: the owned value
for `owned`, the referent for `borrowed`, and the value behind the
capability wrapper for `shared`. -/
theorem c1_constructors_deref_input {V : Type} (m : Memory V) (o : OwnedVal V)
    (r sh a : Nat)
    (h1 : a + sizeOfSelf ≤ USIZE)
    (ho : SupercowData.wfPlace (.Owned o) a)
    (hr : ¬ inSpan a r ∧ r < USIZE)
    (hs : ¬ inSpan a sh ∧ sh < USIZE) :
    Supercow.derefVal (Supercow.ownedCtor m o a).1 (Supercow.ownedCtor m o a).2 a
        = OwnedVal.value m o
    ∧ Supercow.derefVal (Supercow.borrowedCtor m r a).1 (Supercow.borrowedCtor m r a).2 a
        = m.data r
    ∧ Supercow.derefVal (Supercow.sharedCtor m sh a).1 (Supercow.sharedCtor m sh a).2 a
        = m.data sh := by
  refine ⟨?_, ?_, ?_⟩
  · rw [← SupercowData.value_owned]
    exact Supercow.from_data_derefVal m (.Owned o) a h1 ho
  · exact Supercow.from_data_derefVal m (.Borrowed r) a h1 hr
  · exact Supercow.from_data_derefVal m (.Shared sh) a h1 hs

/-- Helper: a state whose target lies outside the struct span is encoded
in absolute mode by `from_data`. -/
theorem Supercow.from_data_absolute {V : Type} (m : Memory V) (s : SupercowData V) (a : Nat)
    (h : ¬ inSpan a (s.targetAddr a)) :
    (Supercow.from_data m s a).2 = ⟨s.targetAddr a, 0, s⟩ := by
  rw [Supercow.from_data_snd]
  simp only [Supercow.set_ptr, Supercow.adjust_ptr]
  rw [if_neg h, if_neg h]

/-- Helper: an absolute-mode container dereferences to its stored
displacement, from any position. -/
theorem Supercow.deref_absolute {V : Type} (d : Nat) (s : SupercowData V) (a1 : Nat)
    (h : d < USIZE) :
    (Supercow.mk d 0 s).deref a1 = d := by
  show (Nat.land a1 0 + d) % USIZE = d
  have hz : Nat.land a1 0 = 0 := Nat.and_zero a1
  rw [hz, Nat.zero_add, Nat.mod_eq_of_lt h]

/-- C5 (amended): on every container whose metadata the address encoder
has computed for its current state — as after construction, copy-on-write
promotion, or guard release — and from every position such a container
may subsequently be moved to, the branch-free dereference returns exactly
the address that a reference implementation branching on the tagged state
(Owned borrow, Borrowed reference, Shared const-deref) would return. -/
theorem c5_branchfree_deref_refines_branchy {V : Type} (s : SupercowData V) (a0 a1 : Nat)
    (h0 : a0 + sizeOfSelf ≤ USIZE) (h1 : a1 + sizeOfSelf ≤ USIZE)
    (hp0 : s.wfPlace a0) :
    (Supercow.set_ptr ⟨0, 0, s⟩ a0).deref a1 = s.targetAddr a1 := by
  have hsz := sizeOfSelf_pos
  have hoff := ownedOff_lt_sizeOfSelf
  rcases s with (v | buf) | r | sh
  · simp only [Supercow.set_ptr, Supercow.adjust_ptr, Supercow.deref,
      SupercowData.targetAddr, OwnedVal.borrowAddr]
    have hc : a0 ≤ a0 + ownedOff ∧ a0 + ownedOff < a0 + sizeOfSelf := by omega
    rw [if_pos hc, if_pos hc, land_all_ones (show a1 < USIZE by omega)]
    have he : a1 + (a0 + ownedOff - a0) = a1 + ownedOff := by omega
    rw [he, Nat.mod_eq_of_lt (show a1 + ownedOff < USIZE by omega)]
  · have hb : (Supercow.set_ptr ⟨0, 0, SupercowData.Owned (OwnedVal.heapV buf)⟩ a0)
        = (⟨buf, 0, SupercowData.Owned (OwnedVal.heapV buf)⟩ : Supercow V) := by
      simp only [Supercow.set_ptr, Supercow.adjust_ptr, SupercowData.targetAddr,
        OwnedVal.borrowAddr]
      rw [if_neg hp0.1, if_neg hp0.1]
    rw [hb]
    exact Supercow.deref_absolute buf _ a1 hp0.2
  · have hb : (Supercow.set_ptr ⟨0, 0, SupercowData.Borrowed r⟩ a0)
        = (⟨r, 0, SupercowData.Borrowed r⟩ : Supercow V) := by
      simp only [Supercow.set_ptr, Supercow.adjust_ptr, SupercowData.targetAddr,
        OwnedVal.borrowAddr]
      rw [if_neg hp0.1, if_neg hp0.1]
    rw [hb]
    exact Supercow.deref_absolute r _ a1 hp0.2
  · have hb : (Supercow.set_ptr ⟨0, 0, SupercowData.Shared sh⟩ a0)
        = (⟨sh, 0, SupercowData.Shared sh⟩ : Supercow V) := by
      simp only [Supercow.set_ptr, Supercow.adjust_ptr, SupercowData.targetAddr,
        OwnedVal.borrowAddr]
      rw [if_neg hp0.1, if_neg hp0.1]
    rw [hb]
    exact Supercow.deref_absolute sh _ a1 hp0.2

/-- C7: during address resolution the target address lies within the
span of the container struct — and relative addressing is therefore
selected — precisely when the state is Owned with the value stored
inline; for external owned buffers, Borrowed referents and Shared targets
the address is recorded as absolute. -/
theorem c7_relative_iff_inline_owned {V : Type} (s : SupercowData V) (a : Nat)
    (hp : s.wfPlace a) :
    (inSpan a (s.targetAddr a) ↔ s.isInlineOwned = true)
    ∧ ((Supercow.set_ptr ⟨0, 0, s⟩ a).ptr_mask = USIZE - 1 ↔ s.isInlineOwned = true)
    ∧ ((Supercow.set_ptr ⟨0, 0, s⟩ a).ptr_mask = 0 ↔ s.isInlineOwned = false) := by
  have hoff := ownedOff_lt_sizeOfSelf
  have hne : USIZE - 1 ≠ 0 := by decide
  rcases s with (v | buf) | r | sh
  · have hc : a ≤ a + ownedOff ∧ a + ownedOff < a + sizeOfSelf := by omega
    have hmask : (Supercow.set_ptr
        ⟨0, 0, SupercowData.Owned (OwnedVal.inlineV v)⟩ a).ptr_mask = USIZE - 1 :=
      if_pos hc
    refine ⟨iff_of_true hc rfl, iff_of_true hmask rfl, iff_of_false ?_ (fun h => Bool.noConfusion h)⟩
    rw [hmask]
    exact hne
  · have hc : ¬ (a ≤ buf ∧ buf < a + sizeOfSelf) := hp.1
    have hmask : (Supercow.set_ptr
        (⟨0, 0, SupercowData.Owned (OwnedVal.heapV buf)⟩ : Supercow V) a).ptr_mask = 0 :=
      if_neg hc
    refine ⟨iff_of_false hc (fun h => Bool.noConfusion h), iff_of_false ?_ (fun h => Bool.noConfusion h), iff_of_true hmask rfl⟩
    rw [hmask]
    exact fun h => hne h.symm
  · have hc : ¬ (a ≤ r ∧ r < a + sizeOfSelf) := hp.1
    have hmask : (Supercow.set_ptr
        (⟨0, 0, SupercowData.Borrowed r⟩ : Supercow V) a).ptr_mask = 0 :=
      if_neg hc
    refine ⟨iff_of_false hc (fun h => Bool.noConfusion h), iff_of_false ?_ (fun h => Bool.noConfusion h), iff_of_true hmask rfl⟩
    rw [hmask]
    exact fun h => hne h.symm
  · have hc : ¬ (a ≤ sh ∧ sh < a + sizeOfSelf) := hp.1
    have hmask : (Supercow.set_ptr
        (⟨0, 0, SupercowData.Shared sh⟩ : Supercow V) a).ptr_mask = 0 :=
      if_neg hc
    refine ⟨iff_of_false hc (fun h => Bool.noConfusion h), iff_of_false ?_ (fun h => Bool.noConfusion h), iff_of_true hmask rfl⟩
    rw [hmask]
    exact fun h => hne h.symm

/-- Helper: cloning a Borrowed container copies the metadata and the
reference itself — no memory is touched and no deep copy is made. -/
theorem Supercow.clone_borrowed {V : Type} (m : Memory V) (d k r aC : Nat) :
    Supercow.clone m (⟨d, k, SupercowData.Borrowed r⟩ : Supercow V) aC
      = (m, ⟨d, k, SupercowData.Borrowed r⟩) := rfl

/-- Helper: cloning a Shared container copies the metadata and duplicates
the capability wrapper, which dereferences to the same stable address. -/
theorem Supercow.clone_shared {V : Type} (m : Memory V) (d k sh aC : Nat) :
    Supercow.clone m (⟨d, k, SupercowData.Shared sh⟩ : Supercow V) aC
      = (m, ⟨d, k, SupercowData.Shared sh⟩) := rfl

/-- C9: a container constructed in Borrowed or Shared state dereferences
to the same address on every call and from every position it may be moved
to, and `clone` copies the reference itself (the cloned state holds the
same address — no deep copy), so a clone dereferences to the same address
as the original. -/
theorem c9_borrowed_shared_address_stability {V : Type} (m m2 : Memory V)
    (r sh a0 a1 a2 aC : Nat)
    (hr : ¬ inSpan a0 r ∧ r < USIZE)
    (hs : ¬ inSpan a0 sh ∧ sh < USIZE) :
    ((Supercow.borrowedCtor m r a0).2.deref a1 = r
      ∧ (Supercow.borrowedCtor m r a0).2.deref a2 = r)
    ∧ ((Supercow.sharedCtor m sh a0).2.deref a1 = sh
      ∧ (Supercow.sharedCtor m sh a0).2.deref a2 = sh)
    ∧ ((Supercow.clone m2 (Supercow.borrowedCtor m r a0).2 aC).2.state
        = SupercowData.Borrowed r
      ∧ (Supercow.clone m2 (Supercow.borrowedCtor m r a0).2 aC).2.deref a1 = r)
    ∧ ((Supercow.clone m2 (Supercow.sharedCtor m sh a0).2 aC).2.state
        = SupercowData.Shared sh
      ∧ (Supercow.clone m2 (Supercow.sharedCtor m sh a0).2 aC).2.deref a1 = sh) := by
  have hb : (Supercow.borrowedCtor m r a0).2
      = (⟨r, 0, SupercowData.Borrowed r⟩ : Supercow V) :=
    Supercow.from_data_absolute m (SupercowData.Borrowed r) a0 hr.1
  have hsh : (Supercow.sharedCtor m sh a0).2
      = (⟨sh, 0, SupercowData.Shared sh⟩ : Supercow V) :=
    Supercow.from_data_absolute m (SupercowData.Shared sh) a0 hs.1
  rw [hb, hsh, Supercow.clone_borrowed, Supercow.clone_shared]
  exact ⟨⟨Supercow.deref_absolute r _ a1 hr.2, Supercow.deref_absolute r _ a2 hr.2⟩,
    ⟨Supercow.deref_absolute sh _ a1 hs.2, Supercow.deref_absolute sh _ a2 hs.2⟩,
    ⟨rfl, Supercow.deref_absolute r _ a1 hr.2⟩,
    ⟨rfl, Supercow.deref_absolute sh _ a1 hs.2⟩⟩

/-- Helper: copy-on-write promotion always leaves the container in Owned
state. -/
theorem Supercow.promote_isOwned {V : Type} (style : BorrowStyle) (m : Memory V)
    (c : Supercow V) (selfAddr tmpAddr : Nat) :
    (Supercow.promote style m c selfAddr tmpAddr).2.state.isOwnedState = true := by
  rcases c with ⟨d, k, st⟩
  rcases st with o | r | sh
  · rfl
  · simp only [Supercow.promote]
    rw [Supercow.materialize_snd, Supercow.from_data_snd]
    rfl
  · simp only [Supercow.promote]
    rw [Supercow.materialize_snd, Supercow.from_data_snd]
    rfl

/-- Helper: after promotion the second match in `to_mut` always takes the
Owned arm, so `to_mut` never returns `none` and equals its total form. -/
theorem Supercow.to_mut_eq_some_run {V : Type} (style : BorrowStyle) (m : Memory V)
    (c : Supercow V) (selfAddr tmpAddr : Nat) :
    Supercow.to_mut style m c selfAddr tmpAddr
      = some (Supercow.to_mut_run style m c selfAddr tmpAddr) := by
  have h := Supercow.promote_isOwned style m c selfAddr tmpAddr
  unfold Supercow.to_mut Supercow.to_mut_run
  rcases hx : (Supercow.promote style m c selfAddr tmpAddr).2.state with o | r | sh
  · simp only [hx]
  · rw [hx] at h
    exact Bool.noConfusion h
  · rw [hx] at h
    exact Bool.noConfusion h

/-- C8: the `unreachable!()` arm after promotion in `to_mut` is never
executed — promotion always leaves the state Owned — and any mutation
made through the returned guard keeps the state Owned, so the container
is Owned for the entire lifetime of the guard. -/
theorem c8_to_mut_always_owned {V : Type} (style : BorrowStyle) (m : Memory V)
    (c : Supercow V) (selfAddr tmpAddr : Nat) :
    (Supercow.to_mut style m c selfAddr tmpAddr
        = some (Supercow.to_mut_run style m c selfAddr tmpAddr))
    ∧ (Supercow.to_mut_run style m c selfAddr tmpAddr).2.state.isOwnedState = true
    ∧ (∀ (inPlace : Bool) (m2 : Memory V) (d k : Nat) (o : OwnedVal V) (a : Nat) (v : V),
        (Supercow.guardSet inPlace m2 ⟨d, k, SupercowData.Owned o⟩ a v).2.state.isOwnedState
          = true) := by
  refine ⟨Supercow.to_mut_eq_some_run style m c selfAddr tmpAddr, ?_, ?_⟩
  · have h := Supercow.promote_isOwned style m c selfAddr tmpAddr
    have he : (Supercow.to_mut_run style m c selfAddr tmpAddr).2.state
        = (Supercow.promote style m c selfAddr tmpAddr).2.state := rfl
    rw [he]
    exact h
  · intro inPlace m2 d k o a v
    rcases o with v0 | buf
    · rfl
    · cases inPlace <;> rfl

/-- Helper: writing one address leaves every other address unchanged. -/
theorem Memory.write_data_ne {V : Type} (m : Memory V) (a : Nat) (v : V) (x : Nat)
    (h : x ≠ a) : (m.write a v).data x = m.data x := by
  simp [Memory.write, h]

/-- Helper: allocation leaves every already-allocated address unchanged. -/
theorem Memory.alloc_data_lt {V : Type} (m : Memory V) (v : V) (x : Nat)
    (h : x < m.next) : (m.alloc v).1.data x = m.data x := by
  have hne : x ≠ m.next := by omega
  simp [Memory.alloc, hne]

/-- The copy-on-write mutation scenario of the spec: clone a container
(placing the clone at `addrB`), call `to_mut` on the clone (the promotion
temporary living at `tmpAddr`), write `v` through the guard, and release
the guard (`Drop for Ref` recomputes metadata but touches no memory).
Returns the final memory. -/
def cowScenario {V : Type} (style : BorrowStyle) (inPlace : Bool) (m : Memory V)
    (c : Supercow V) (addrB tmpAddr : Nat) (v : V) : Memory V :=
  let p1 := Supercow.clone m c addrB
  let p2 := Supercow.to_mut_run style p1.1 p1.2 addrB tmpAddr
  let p3 := Supercow.guardSet inPlace p2.1 p2.2 addrB v
  p3.1

/-- Lower bound on the external buffer an Owned state may hold; trivial
for the other states.  Used to track that buffers created by `clone` or
by promotion are fresh. -/
abbrev SupercowData.heapGe {V : Type} (s : SupercowData V) (n : Nat) : Prop :=
  match s with
  | .Owned (.heapV b) => n ≤ b
  | _ => True

/-- Helper: `clone` leaves every address below the allocation frontier
and outside the clone struct unchanged. -/
theorem Supercow.clone_frame {V : Type} (m : Memory V) (c : Supercow V) (dst x : Nat)
    (hx : x < m.next) (hB : ¬ inSpan dst x) :
    (Supercow.clone m c dst).1.data x = m.data x := by
  have hoff := ownedOff_lt_sizeOfSelf
  simp only [inSpan] at hB
  rcases c with ⟨d, k, st⟩
  rcases st with (v0 | buf) | r | sh
  · exact Memory.write_data_ne m (dst + ownedOff) v0 x (by omega)
  · exact Memory.alloc_data_lt m (m.data buf) x hx
  · rfl
  · rfl

/-- Helper: `clone` never lowers the allocation frontier. -/
theorem Supercow.clone_next {V : Type} (m : Memory V) (c : Supercow V) (dst : Nat) :
    m.next ≤ (Supercow.clone m c dst).1.next := by
  rcases c with ⟨d, k, st⟩
  rcases st with (v0 | buf) | r | sh
  · exact Nat.le_refl _
  · exact Nat.le_succ _
  · exact Nat.le_refl _
  · exact Nat.le_refl _

/-- Helper: any buffer held by a clone is at or above the old frontier. -/
theorem Supercow.clone_heapGe {V : Type} (m : Memory V) (c : Supercow V) (dst n : Nat)
    (h : n ≤ m.next) :
    SupercowData.heapGe (Supercow.clone m c dst).2.state n := by
  rcases c with ⟨d, k, st⟩
  rcases st with (v0 | buf) | r | sh
  · trivial
  · exact h
  · trivial
  · trivial

/-- Helper: promotion leaves every address below the allocation frontier
and outside the two struct spans unchanged. -/
theorem Supercow.promote_frame {V : Type} (style : BorrowStyle) (m : Memory V)
    (c : Supercow V) (selfAddr tmpAddr x : Nat)
    (hx : x < m.next) (hS : ¬ inSpan selfAddr x) (hT : ¬ inSpan tmpAddr x) :
    (Supercow.promote style m c selfAddr tmpAddr).1.data x = m.data x := by
  have hoff := ownedOff_lt_sizeOfSelf
  simp only [inSpan] at hS hT
  rcases c with ⟨d, k, st⟩
  rcases st with (v0 | buf) | r | sh <;> cases style <;>
    simp only [Supercow.promote, toOwnedVal, Supercow.from_data, Supercow.materialize,
      Supercow.set_ptr, Supercow.adjust_ptr, Memory.write, Memory.alloc]
  · show (if x = selfAddr + ownedOff then m.data r
        else if x = tmpAddr + ownedOff then m.data r else m.data x) = m.data x
    rw [if_neg (by omega), if_neg (by omega)]
  · show (if x = m.next then m.data r else m.data x) = m.data x
    rw [if_neg (by omega)]
  · show (if x = selfAddr + ownedOff then m.data sh
        else if x = tmpAddr + ownedOff then m.data sh else m.data x) = m.data x
    rw [if_neg (by omega), if_neg (by omega)]
  · show (if x = m.next then m.data sh else m.data x) = m.data x
    rw [if_neg (by omega)]

/-- Helper: promotion never lowers the allocation frontier. -/
theorem Supercow.promote_next {V : Type} (style : BorrowStyle) (m : Memory V)
    (c : Supercow V) (selfAddr tmpAddr : Nat) :
    m.next ≤ (Supercow.promote style m c selfAddr tmpAddr).1.next := by
  rcases c with ⟨d, k, st⟩
  rcases st with (v0 | buf) | r | sh <;> cases style <;>
    simp only [Supercow.promote, toOwnedVal, Supercow.from_data, Supercow.materialize,
      Supercow.set_ptr, Supercow.adjust_ptr, Memory.write, Memory.alloc]
  · exact Nat.le_refl _
  · exact Nat.le_refl _
  · exact Nat.le_refl _
  · exact Nat.le_refl _
  · show m.next ≤ m.next
    exact Nat.le_refl _
  · show m.next ≤ m.next + 1
    exact Nat.le_succ _
  · show m.next ≤ m.next
    exact Nat.le_refl _
  · show m.next ≤ m.next + 1
    exact Nat.le_succ _

/-- Helper: promotion preserves the buffer lower bound. -/
theorem Supercow.promote_heapGe {V : Type} (style : BorrowStyle) (m : Memory V)
    (c : Supercow V) (selfAddr tmpAddr n : Nat)
    (hc : c.state.heapGe n) (h : n ≤ m.next) :
    SupercowData.heapGe (Supercow.promote style m c selfAddr tmpAddr).2.state n := by
  rcases c with ⟨d, k, st⟩
  rcases st with (v0 | buf) | r | sh <;> cases style <;>
    simp only [Supercow.promote, toOwnedVal]
  · trivial
  · trivial
  · exact hc
  · exact hc
  · rw [Supercow.materialize_snd, Supercow.from_data_snd]
    trivial
  · rw [Supercow.materialize_snd, Supercow.from_data_snd]
    exact h
  · rw [Supercow.materialize_snd, Supercow.from_data_snd]
    trivial
  · rw [Supercow.materialize_snd, Supercow.from_data_snd]
    exact h

/-- Helper: a guard mutation leaves every address below the buffer bound
`n` and outside the parent struct unchanged. -/
theorem Supercow.guardSet_frame {V : Type} (inPlace : Bool) (m : Memory V)
    (c : Supercow V) (selfAddr : Nat) (v : V) (x n : Nat)
    (hc : c.state.heapGe n) (hx : x < n) (hn : n ≤ m.next)
    (hB : ¬ inSpan selfAddr x) :
    (Supercow.guardSet inPlace m c selfAddr v).1.data x = m.data x := by
  have hoff := ownedOff_lt_sizeOfSelf
  simp only [inSpan] at hB
  rcases c with ⟨d, k, st⟩
  rcases st with (v0 | buf) | r | sh
  · exact Memory.write_data_ne m (selfAddr + ownedOff) v x (by omega)
  · have hbuf : n ≤ buf := hc
    cases inPlace
    · exact Memory.alloc_data_lt m v x (by omega)
    · exact Memory.write_data_ne m buf v x (by omega)
  · rfl
  · rfl

/-- Helper: the memory and state of the total `to_mut` agree with those
of the promotion step (the later steps only touch struct metadata). -/
theorem Supercow.to_mut_run_fst {V : Type} (style : BorrowStyle) (m : Memory V)
    (c : Supercow V) (selfAddr tmpAddr : Nat) :
    (Supercow.to_mut_run style m c selfAddr tmpAddr).1
      = (Supercow.promote style m c selfAddr tmpAddr).1 := rfl

/-- Helper: the state of the total `to_mut` is the promoted state. -/
theorem Supercow.to_mut_run_state {V : Type} (style : BorrowStyle) (m : Memory V)
    (c : Supercow V) (selfAddr tmpAddr : Nat) :
    (Supercow.to_mut_run style m c selfAddr tmpAddr).2.state
      = (Supercow.promote style m c selfAddr tmpAddr).2.state := rfl

/-- Helper: the whole clone-and-mutate scenario only writes inside the
clone struct, inside the promotion temporary, or at freshly allocated
addresses; every address below the allocation frontier and outside those
two struct spans is untouched. -/
theorem cowScenario_frame {V : Type} (style : BorrowStyle) (inPlace : Bool)
    (m : Memory V) (c : Supercow V) (addrB tmpAddr : Nat) (v : V) (x : Nat)
    (hx : x < m.next) (hB : ¬ inSpan addrB x) (hT : ¬ inSpan tmpAddr x) :
    (cowScenario style inPlace m c addrB tmpAddr v).data x = m.data x := by
  simp only [cowScenario]
  have h1n : m.next ≤ (Supercow.clone m c addrB).1.next := Supercow.clone_next m c addrB
  have h1g : SupercowData.heapGe (Supercow.clone m c addrB).2.state m.next :=
    Supercow.clone_heapGe m c addrB m.next (Nat.le_refl _)
  have h2n : (Supercow.clone m c addrB).1.next
      ≤ (Supercow.to_mut_run style (Supercow.clone m c addrB).1
          (Supercow.clone m c addrB).2 addrB tmpAddr).1.next := by
    rw [Supercow.to_mut_run_fst]
    exact Supercow.promote_next style _ _ addrB tmpAddr
  have h2g : SupercowData.heapGe
      (Supercow.to_mut_run style (Supercow.clone m c addrB).1
        (Supercow.clone m c addrB).2 addrB tmpAddr).2.state m.next := by
    rw [Supercow.to_mut_run_state]
    exact Supercow.promote_heapGe style _ _ addrB tmpAddr m.next h1g h1n
  calc (Supercow.guardSet inPlace
          (Supercow.to_mut_run style (Supercow.clone m c addrB).1
            (Supercow.clone m c addrB).2 addrB tmpAddr).1
          (Supercow.to_mut_run style (Supercow.clone m c addrB).1
            (Supercow.clone m c addrB).2 addrB tmpAddr).2 addrB v).1.data x
      = (Supercow.to_mut_run style (Supercow.clone m c addrB).1
          (Supercow.clone m c addrB).2 addrB tmpAddr).1.data x :=
        Supercow.guardSet_frame inPlace _ _ addrB v x m.next h2g hx
          (Nat.le_trans h1n h2n) hB
    _ = (Supercow.clone m c addrB).1.data x := by
        rw [Supercow.to_mut_run_fst]
        exact Supercow.promote_frame style _ _ addrB tmpAddr x
          (Nat.lt_of_lt_of_le hx h1n) hB hT
    _ = m.data x := Supercow.clone_frame m c addrB x hx hB

/-- C2: cloning a container and then mutating the clone through `to_mut`
(promotion, guard write, guard release) never changes the value any other
container dereferences to, provided that container dereferences into
live allocated data outside the clone struct and the promotion temporary:
promotion always installs a fresh owned copy before mutation is
possible, so every write lands in the clone struct or in fresh
allocations. -/
theorem c2_cow_isolation {V : Type} (style : BorrowStyle) (inPlace : Bool)
    (m : Memory V) (c other : Supercow V) (addrB tmpAddr addrD : Nat) (v : V)
    (hx : other.deref addrD < m.next)
    (hB : ¬ inSpan addrB (other.deref addrD))
    (hT : ¬ inSpan tmpAddr (other.deref addrD)) :
    Supercow.derefVal (cowScenario style inPlace m c addrB tmpAddr v) other addrD
      = Supercow.derefVal m other addrD := by
  unfold Supercow.derefVal
  exact cowScenario_frame style inPlace m c addrB tmpAddr v (other.deref addrD) hx hB hT

/-- Helper: under the metadata invariant and physical placement, the
cached fields are determined: relative mode with displacement `ownedOff`
for an inline Owned state, absolute mode with the target address
otherwise. -/
theorem Supercow.metaOk_resolve {V : Type} (c : Supercow V) (a : Nat)
    (hm : c.metaOk a) (hpl : c.state.wfPlace a) :
    (SupercowData.isInlineOwned c.state = true
        ∧ c.ptr_mask = USIZE - 1 ∧ c.ptr_displacement = ownedOff)
    ∨ (SupercowData.isInlineOwned c.state = false
        ∧ c.ptr_mask = 0 ∧ c.ptr_displacement = c.state.targetAddr a) := by
  have hoff := ownedOff_lt_sizeOfSelf
  rcases c with ⟨dd, k, st⟩
  rcases st with (v | buf) | r | sh
  · left
    rcases hm with ⟨hk, hin, hd⟩ | ⟨hk, hout, hd⟩
    · refine ⟨rfl, hk, ?_⟩
      rw [hd]
      show a + ownedOff - a = ownedOff
      omega
    · exact absurd (show inSpan a (a + ownedOff) from ⟨by omega, by omega⟩) hout
  · right
    rcases hm with ⟨hk, hin, hd⟩ | ⟨hk, hout, hd⟩
    · exact absurd hin hpl.1
    · exact ⟨rfl, hk, hd⟩
  · right
    rcases hm with ⟨hk, hin, hd⟩ | ⟨hk, hout, hd⟩
    · exact absurd hin hpl.1
    · exact ⟨rfl, hk, hd⟩
  · right
    rcases hm with ⟨hk, hin, hd⟩ | ⟨hk, hout, hd⟩
    · exact absurd hin hpl.1
    · exact ⟨rfl, hk, hd⟩

/-- Helper: a relative-mode container dereferences to its inline slot at
whatever position it currently occupies. -/
theorem Supercow.deref_relative {V : Type} (s : SupercowData V) (a1 : Nat)
    (h : a1 + sizeOfSelf ≤ USIZE) :
    (Supercow.mk ownedOff (USIZE - 1) s).deref a1 = a1 + ownedOff := by
  have hoff := ownedOff_lt_sizeOfSelf
  show (Nat.land a1 (USIZE - 1) + ownedOff) % USIZE = a1 + ownedOff
  rw [land_all_ones (show a1 < USIZE by omega),
    Nat.mod_eq_of_lt (show a1 + ownedOff < USIZE by omega)]

/-- Helper: the dereferenced value equals the value designated by the
state, under the metadata and memory invariants. -/
theorem Supercow.derefVal_eq_value {V : Type} (m : Memory V) (c : Supercow V) (a : Nat)
    (hm : c.metaOk a) (hmem : c.memOk m a) (ha : c.addrOk a) :
    Supercow.derefVal m c a = c.state.value m := by
  unfold Supercow.derefVal
  rw [Supercow.deref_eq_target c a hm ha.1 ha.2]
  rcases c with ⟨dd, k, st⟩
  rcases st with (v | buf) | r | sh
  · exact hmem
  · rfl
  · rfl
  · rfl

/-- C3 (amended): for every container whose cached metadata is
consistent with its state — as after construction, copy-on-write
promotion, or guard release; clones of Owned containers with external
borrows can carry stale metadata and are excluded (see the
counterexample) — `into_inner` and `take_ownership` both yield the value
that `dereference` returned immediately before the call: `into_inner`
extracts an owned value equal to it, and the container returned by
`take_ownership` dereferences to it from its new position. -/
theorem c3_into_inner_take_ownership {V : Type} (style : BorrowStyle) (m : Memory V)
    (c : Supercow V) (selfAddr dstAddr : Nat)
    (hm : c.metaOk selfAddr) (hmem : c.memOk m selfAddr) (ha : c.addrOk selfAddr)
    (hpl : c.state.wfPlace selfAddr)
    (hd0 : dstAddr + sizeOfSelf ≤ USIZE)
    (hnB : ¬ inSpan dstAddr m.next) (hnU : m.next < USIZE) :
    OwnedVal.value (Supercow.into_inner style m c).1 (Supercow.into_inner style m c).2
        = Supercow.derefVal m c selfAddr
    ∧ Supercow.derefVal (Supercow.take_ownership style m c dstAddr).1
        (Supercow.take_ownership style m c dstAddr).2 dstAddr
      = Supercow.derefVal m c selfAddr := by
  rw [Supercow.derefVal_eq_value m c selfAddr hm hmem ha]
  constructor
  · rcases c with ⟨dd, k, st⟩
    rcases st with (v | buf) | r | sh
    · rfl
    · rfl
    · cases style
      · rfl
      · simp [Supercow.into_inner, toOwnedVal, Memory.alloc, OwnedVal.value,
          SupercowData.value]
    · cases style
      · rfl
      · simp [Supercow.into_inner, toOwnedVal, Memory.alloc, OwnedVal.value,
          SupercowData.value]
  · rcases c with ⟨dd, k, st⟩
    rcases st with (v | buf) | r | sh
    · rcases Supercow.metaOk_resolve ⟨dd, k, .Owned (.inlineV v)⟩ selfAddr hm hpl with
        ⟨hio, hk, hd⟩ | ⟨hio, hk, hd⟩
      · have hkk : k = USIZE - 1 := hk
        have hdd : dd = ownedOff := hd
        subst hkk
        subst hdd
        show Supercow.derefVal (m.write (dstAddr + ownedOff) v)
            ⟨ownedOff, USIZE - 1, SupercowData.Owned (OwnedVal.inlineV v)⟩ dstAddr
          = SupercowData.value m (SupercowData.Owned (OwnedVal.inlineV v))
        unfold Supercow.derefVal
        rw [Supercow.deref_relative _ dstAddr hd0]
        simp [Memory.write, SupercowData.value]
      · exact Bool.noConfusion hio
    · rcases Supercow.metaOk_resolve ⟨dd, k, .Owned (.heapV buf)⟩ selfAddr hm hpl with
        ⟨hio, hk, hd⟩ | ⟨hio, hk, hd⟩
      · exact Bool.noConfusion hio
      · have hkk : k = 0 := hk
        have hdd : dd = buf := hd
        subst hkk
        subst hdd
        show Supercow.derefVal m
            ⟨dd, 0, SupercowData.Owned (OwnedVal.heapV dd)⟩ dstAddr
          = SupercowData.value m (SupercowData.Owned (OwnedVal.heapV dd))
        unfold Supercow.derefVal
        rw [Supercow.deref_absolute dd _ dstAddr ha.2]
        rfl
    · cases style
      · show Supercow.derefVal
            (Supercow.from_data m (.Owned (.inlineV (m.data r))) dstAddr).1
            (Supercow.from_data m (.Owned (.inlineV (m.data r))) dstAddr).2 dstAddr
          = SupercowData.value m (SupercowData.Borrowed r)
        rw [Supercow.from_data_derefVal m
          (SupercowData.Owned (OwnedVal.inlineV (m.data r))) dstAddr hd0 True.intro]
        rfl
      · show Supercow.derefVal
            (Supercow.from_data (m.alloc (m.data r)).1
              (.Owned (.heapV m.next)) dstAddr).1
            (Supercow.from_data (m.alloc (m.data r)).1
              (.Owned (.heapV m.next)) dstAddr).2 dstAddr
          = SupercowData.value m (SupercowData.Borrowed r)
        rw [Supercow.from_data_derefVal (m.alloc (m.data r)).1
          (SupercowData.Owned (OwnedVal.heapV m.next)) dstAddr hd0 ⟨hnB, hnU⟩]
        simp [SupercowData.value, Memory.alloc]
    · cases style
      · show Supercow.derefVal
            (Supercow.from_data m (.Owned (.inlineV (m.data sh))) dstAddr).1
            (Supercow.from_data m (.Owned (.inlineV (m.data sh))) dstAddr).2 dstAddr
          = SupercowData.value m (SupercowData.Shared sh)
        rw [Supercow.from_data_derefVal m
          (SupercowData.Owned (OwnedVal.inlineV (m.data sh))) dstAddr hd0 True.intro]
        rfl
      · show Supercow.derefVal
            (Supercow.from_data (m.alloc (m.data sh)).1
              (.Owned (.heapV m.next)) dstAddr).1
            (Supercow.from_data (m.alloc (m.data sh)).1
              (.Owned (.heapV m.next)) dstAddr).2 dstAddr
          = SupercowData.value m (SupercowData.Shared sh)
        rw [Supercow.from_data_derefVal (m.alloc (m.data sh)).1
          (SupercowData.Owned (OwnedVal.heapV m.next)) dstAddr hd0 ⟨hnB, hnU⟩]
        simp [SupercowData.value, Memory.alloc]

/-- C4: equality, ordering, hashing and formatting of two containers are
exactly the equality, ordering, hashing and formatting of their
dereferenced target values: in any combination of Owned/Borrowed/Shared
states, under the metadata and memory invariants the results depend only
on the values the states designate, never on the state kinds. -/
theorem c4_traits_delegate_to_target {V : Type} [DecidableEq V]
    (cmpV : V → V → Ordering) (h : V → Nat) (f : V → String) (m : Memory V)
    (a b : Supercow V) (aAddr bAddr : Nat)
    (hma : a.metaOk aAddr) (hmema : a.memOk m aAddr) (haa : a.addrOk aAddr)
    (hmb : b.metaOk bAddr) (hmemb : b.memOk m bAddr) (hab : b.addrOk bAddr) :
    Supercow.scEq m a aAddr b bAddr = decide (a.state.value m = b.state.value m)
    ∧ Supercow.scCmp cmpV m a aAddr b bAddr = cmpV (a.state.value m) (b.state.value m)
    ∧ Supercow.scHash h m a aAddr = h (a.state.value m)
    ∧ Supercow.scFmt f m a aAddr = f (a.state.value m) := by
  have hva := Supercow.derefVal_eq_value m a aAddr hma hmema haa
  have hvb := Supercow.derefVal_eq_value m b bAddr hmb hmemb hab
  unfold Supercow.scEq Supercow.scCmp Supercow.scHash Supercow.scFmt
  rw [hva, hvb]
  exact ⟨rfl, rfl, rfl, rfl⟩

/-- C10: a container compares with `PartialEq` and `PartialOrd` against
any value of any type that dereferences to the target type (modelled by
the address the deref of the other side returns), and the result is
exactly the comparison of the two dereferenced targets. -/
theorem c10_cmp_against_any_deref {V : Type} [DecidableEq V]
    (pc : V → V → Option Ordering) (m : Memory V) (c : Supercow V)
    (selfAddr otherAddr : Nat)
    (hm : c.metaOk selfAddr) (hmem : c.memOk m selfAddr) (ha : c.addrOk selfAddr) :
    Supercow.scEqAny m c selfAddr otherAddr
        = decide (c.state.value m = m.data otherAddr)
    ∧ Supercow.scPartialCmpAny pc m c selfAddr otherAddr
        = pc (c.state.value m) (m.data otherAddr) := by
  have hv := Supercow.derefVal_eq_value m c selfAddr hm hmem ha
  unfold Supercow.scEqAny Supercow.scPartialCmpAny
  rw [hv]
  exact ⟨rfl, rfl⟩

/-- C5, counterexample to the claim as stated: a clone of an Owned
container whose borrow points at an external heap buffer is reachable
through the public API, yet its branch-free dereference resolves to the
address of the original container's buffer (500) while the branchy
reference implementation returns the clone's own freshly allocated
buffer (1000) — the two are observably different at this container. -/
theorem c5_cex_stale_clone :
    (Supercow.clone
        (Supercow.from_data (⟨fun a => if a = 500 then 7 else 0, 1000⟩ : Memory Nat)
          (SupercowData.Owned (OwnedVal.heapV 500)) 100).1
        (Supercow.from_data (⟨fun a => if a = 500 then 7 else 0, 1000⟩ : Memory Nat)
          (SupercowData.Owned (OwnedVal.heapV 500)) 100).2 200).2.deref 200 = 500
    ∧ SupercowData.targetAddr
        (Supercow.clone
          (Supercow.from_data (⟨fun a => if a = 500 then 7 else 0, 1000⟩ : Memory Nat)
            (SupercowData.Owned (OwnedVal.heapV 500)) 100).1
          (Supercow.from_data (⟨fun a => if a = 500 then 7 else 0, 1000⟩ : Memory Nat)
            (SupercowData.Owned (OwnedVal.heapV 500)) 100).2 200).2.state 200 = 1000
    ∧ (500 : Nat) ≠ 1000 := by
  decide

/-- C6, evaluation at the failing input: after cloning an Owned container
whose borrow is an external buffer, the clone's metadata still addresses
the original's buffer (500) and not the clone's own buffer (1000); an
in-place guard mutation of the original (writing 9) then changes what
the clone dereferences to (9), even though the clone's own owned value
still holds 7 — the clone's resolved-address metadata is inconsistent
with its own state target. -/
theorem c6_clone_stale_metadata_eval :
    ((Supercow.clone
        (Supercow.from_data (⟨fun a => if a = 500 then 7 else 0, 1000⟩ : Memory Nat)
          (SupercowData.Owned (OwnedVal.heapV 500)) 100).1
        (Supercow.from_data (⟨fun a => if a = 500 then 7 else 0, 1000⟩ : Memory Nat)
          (SupercowData.Owned (OwnedVal.heapV 500)) 100).2 200).2.deref 200 = 500
      ∧ SupercowData.targetAddr
        (Supercow.clone
          (Supercow.from_data (⟨fun a => if a = 500 then 7 else 0, 1000⟩ : Memory Nat)
            (SupercowData.Owned (OwnedVal.heapV 500)) 100).1
          (Supercow.from_data (⟨fun a => if a = 500 then 7 else 0, 1000⟩ : Memory Nat)
            (SupercowData.Owned (OwnedVal.heapV 500)) 100).2 200).2.state 200 = 1000)
    ∧ (Supercow.derefVal
        (Supercow.guardSet true
          (Supercow.to_mut_run BorrowStyle.externB
            (Supercow.clone
              (Supercow.from_data (⟨fun a => if a = 500 then 7 else 0, 1000⟩ : Memory Nat)
                (SupercowData.Owned (OwnedVal.heapV 500)) 100).1
              (Supercow.from_data (⟨fun a => if a = 500 then 7 else 0, 1000⟩ : Memory Nat)
                (SupercowData.Owned (OwnedVal.heapV 500)) 100).2 200).1
            (Supercow.from_data (⟨fun a => if a = 500 then 7 else 0, 1000⟩ : Memory Nat)
              (SupercowData.Owned (OwnedVal.heapV 500)) 100).2 100 300).1
          (Supercow.to_mut_run BorrowStyle.externB
            (Supercow.clone
              (Supercow.from_data (⟨fun a => if a = 500 then 7 else 0, 1000⟩ : Memory Nat)
                (SupercowData.Owned (OwnedVal.heapV 500)) 100).1
              (Supercow.from_data (⟨fun a => if a = 500 then 7 else 0, 1000⟩ : Memory Nat)
                (SupercowData.Owned (OwnedVal.heapV 500)) 100).2 200).1
            (Supercow.from_data (⟨fun a => if a = 500 then 7 else 0, 1000⟩ : Memory Nat)
              (SupercowData.Owned (OwnedVal.heapV 500)) 100).2 100 300).2 100 9).1
        (Supercow.clone
          (Supercow.from_data (⟨fun a => if a = 500 then 7 else 0, 1000⟩ : Memory Nat)
            (SupercowData.Owned (OwnedVal.heapV 500)) 100).1
          (Supercow.from_data (⟨fun a => if a = 500 then 7 else 0, 1000⟩ : Memory Nat)
            (SupercowData.Owned (OwnedVal.heapV 500)) 100).2 200).2 200 = 9
      ∧ SupercowData.value
        (Supercow.guardSet true
          (Supercow.to_mut_run BorrowStyle.externB
            (Supercow.clone
              (Supercow.from_data (⟨fun a => if a = 500 then 7 else 0, 1000⟩ : Memory Nat)
                (SupercowData.Owned (OwnedVal.heapV 500)) 100).1
              (Supercow.from_data (⟨fun a => if a = 500 then 7 else 0, 1000⟩ : Memory Nat)
                (SupercowData.Owned (OwnedVal.heapV 500)) 100).2 200).1
            (Supercow.from_data (⟨fun a => if a = 500 then 7 else 0, 1000⟩ : Memory Nat)
              (SupercowData.Owned (OwnedVal.heapV 500)) 100).2 100 300).1
          (Supercow.to_mut_run BorrowStyle.externB
            (Supercow.clone
              (Supercow.from_data (⟨fun a => if a = 500 then 7 else 0, 1000⟩ : Memory Nat)
                (SupercowData.Owned (OwnedVal.heapV 500)) 100).1
              (Supercow.from_data (⟨fun a => if a = 500 then 7 else 0, 1000⟩ : Memory Nat)
                (SupercowData.Owned (OwnedVal.heapV 500)) 100).2 200).1
            (Supercow.from_data (⟨fun a => if a = 500 then 7 else 0, 1000⟩ : Memory Nat)
              (SupercowData.Owned (OwnedVal.heapV 500)) 100).2 100 300).2 100 9).1
        (Supercow.clone
          (Supercow.from_data (⟨fun a => if a = 500 then 7 else 0, 1000⟩ : Memory Nat)
            (SupercowData.Owned (OwnedVal.heapV 500)) 100).1
          (Supercow.from_data (⟨fun a => if a = 500 then 7 else 0, 1000⟩ : Memory Nat)
            (SupercowData.Owned (OwnedVal.heapV 500)) 100).2 200).2.state = 7) := by
  decide

/-- C3, counterexample to the claim as stated: on the reachable stale
clone produced by the Clone defect — construct an Owned container whose
borrow is an external buffer, clone it, then mutate the original in
place through its guard — `into_inner` extracts the owned value of the
clone itself (7), while the dereference immediately before the call
reads the mutated buffer of the original (9). -/
theorem c3_cex_stale_clone_into_inner :
    OwnedVal.value (Supercow.into_inner BorrowStyle.externB (Supercow.guardSet true (Supercow.to_mut_run BorrowStyle.externB (Supercow.clone (Supercow.from_data (⟨fun a => if a = 500 then 7 else 0, 1000⟩ : Memory Nat)
          (SupercowData.Owned (OwnedVal.heapV 500)) 100).1 (Supercow.from_data (⟨fun a => if a = 500 then 7 else 0, 1000⟩ : Memory Nat)
          (SupercowData.Owned (OwnedVal.heapV 500)) 100).2 200).1 (Supercow.from_data (⟨fun a => if a = 500 then 7 else 0, 1000⟩ : Memory Nat)
          (SupercowData.Owned (OwnedVal.heapV 500)) 100).2 100 300).1 (Supercow.to_mut_run BorrowStyle.externB (Supercow.clone (Supercow.from_data (⟨fun a => if a = 500 then 7 else 0, 1000⟩ : Memory Nat)
          (SupercowData.Owned (OwnedVal.heapV 500)) 100).1 (Supercow.from_data (⟨fun a => if a = 500 then 7 else 0, 1000⟩ : Memory Nat)
          (SupercowData.Owned (OwnedVal.heapV 500)) 100).2 200).1 (Supercow.from_data (⟨fun a => if a = 500 then 7 else 0, 1000⟩ : Memory Nat)
          (SupercowData.Owned (OwnedVal.heapV 500)) 100).2 100 300).2 100 9).1 (Supercow.clone (Supercow.from_data (⟨fun a => if a = 500 then 7 else 0, 1000⟩ : Memory Nat)
          (SupercowData.Owned (OwnedVal.heapV 500)) 100).1 (Supercow.from_data (⟨fun a => if a = 500 then 7 else 0, 1000⟩ : Memory Nat)
          (SupercowData.Owned (OwnedVal.heapV 500)) 100).2 200).2).1 (Supercow.into_inner BorrowStyle.externB (Supercow.guardSet true (Supercow.to_mut_run BorrowStyle.externB (Supercow.clone (Supercow.from_data (⟨fun a => if a = 500 then 7 else 0, 1000⟩ : Memory Nat)
          (SupercowData.Owned (OwnedVal.heapV 500)) 100).1 (Supercow.from_data (⟨fun a => if a = 500 then 7 else 0, 1000⟩ : Memory Nat)
          (SupercowData.Owned (OwnedVal.heapV 500)) 100).2 200).1 (Supercow.from_data (⟨fun a => if a = 500 then 7 else 0, 1000⟩ : Memory Nat)
          (SupercowData.Owned (OwnedVal.heapV 500)) 100).2 100 300).1 (Supercow.to_mut_run BorrowStyle.externB (Supercow.clone (Supercow.from_data (⟨fun a => if a = 500 then 7 else 0, 1000⟩ : Memory Nat)
          (SupercowData.Owned (OwnedVal.heapV 500)) 100).1 (Supercow.from_data (⟨fun a => if a = 500 then 7 else 0, 1000⟩ : Memory Nat)
          (SupercowData.Owned (OwnedVal.heapV 500)) 100).2 200).1 (Supercow.from_data (⟨fun a => if a = 500 then 7 else 0, 1000⟩ : Memory Nat)
          (SupercowData.Owned (OwnedVal.heapV 500)) 100).2 100 300).2 100 9).1 (Supercow.clone (Supercow.from_data (⟨fun a => if a = 500 then 7 else 0, 1000⟩ : Memory Nat)
          (SupercowData.Owned (OwnedVal.heapV 500)) 100).1 (Supercow.from_data (⟨fun a => if a = 500 then 7 else 0, 1000⟩ : Memory Nat)
          (SupercowData.Owned (OwnedVal.heapV 500)) 100).2 200).2).2 = 7
    ∧ Supercow.derefVal (Supercow.guardSet true (Supercow.to_mut_run BorrowStyle.externB (Supercow.clone (Supercow.from_data (⟨fun a => if a = 500 then 7 else 0, 1000⟩ : Memory Nat)
          (SupercowData.Owned (OwnedVal.heapV 500)) 100).1 (Supercow.from_data (⟨fun a => if a = 500 then 7 else 0, 1000⟩ : Memory Nat)
          (SupercowData.Owned (OwnedVal.heapV 500)) 100).2 200).1 (Supercow.from_data (⟨fun a => if a = 500 then 7 else 0, 1000⟩ : Memory Nat)
          (SupercowData.Owned (OwnedVal.heapV 500)) 100).2 100 300).1 (Supercow.to_mut_run BorrowStyle.externB (Supercow.clone (Supercow.from_data (⟨fun a => if a = 500 then 7 else 0, 1000⟩ : Memory Nat)
          (SupercowData.Owned (OwnedVal.heapV 500)) 100).1 (Supercow.from_data (⟨fun a => if a = 500 then 7 else 0, 1000⟩ : Memory Nat)
          (SupercowData.Owned (OwnedVal.heapV 500)) 100).2 200).1 (Supercow.from_data (⟨fun a => if a = 500 then 7 else 0, 1000⟩ : Memory Nat)
          (SupercowData.Owned (OwnedVal.heapV 500)) 100).2 100 300).2 100 9).1 (Supercow.clone (Supercow.from_data (⟨fun a => if a = 500 then 7 else 0, 1000⟩ : Memory Nat)
          (SupercowData.Owned (OwnedVal.heapV 500)) 100).1 (Supercow.from_data (⟨fun a => if a = 500 then 7 else 0, 1000⟩ : Memory Nat)
          (SupercowData.Owned (OwnedVal.heapV 500)) 100).2 200).2 200 = 9
    ∧ (7 : Nat) ≠ 9 := by
  decide


/-- Concrete memory for the witnesses: address `x` holds the value `x`,
allocation frontier 1000. -/
abbrev memW : Memory Nat := ⟨fun x => x, 1000⟩

/-- Concrete Borrowed-state container for the witnesses: referent at
address 500, absolute metadata. -/
abbrev cBorW : Supercow Nat := ⟨500, 0, SupercowData.Borrowed 500⟩

/-- Concrete inline-Owned container for the witnesses: placed at 100,
relative metadata, inline value 116 (the content of its slot in `memW`). -/
abbrev cInlW : Supercow Nat := ⟨16, USIZE - 1, SupercowData.Owned (OwnedVal.inlineV 116)⟩

/-- Witness for C1 at concrete inputs. -/
theorem c1_constructors_deref_input_witness :
    (100 + sizeOfSelf ≤ USIZE)
    ∧ SupercowData.wfPlace (SupercowData.Owned (OwnedVal.inlineV (5 : Nat))) 100
    ∧ (¬ inSpan 100 500 ∧ 500 < USIZE)
    ∧ (¬ inSpan 100 600 ∧ 600 < USIZE)
    ∧ (Supercow.derefVal (Supercow.ownedCtor memW (OwnedVal.inlineV 5) 100).1
          (Supercow.ownedCtor memW (OwnedVal.inlineV 5) 100).2 100
        = OwnedVal.value memW (OwnedVal.inlineV 5)
      ∧ Supercow.derefVal (Supercow.borrowedCtor memW 500 100).1
          (Supercow.borrowedCtor memW 500 100).2 100 = memW.data 500
      ∧ Supercow.derefVal (Supercow.sharedCtor memW 600 100).1
          (Supercow.sharedCtor memW 600 100).2 100 = memW.data 600) :=
  ⟨by decide, by decide, by decide, by decide,
    c1_constructors_deref_input memW (OwnedVal.inlineV 5) 500 600 100
      (by decide) (by decide) (by decide) (by decide)⟩

/-- Witness for C2 at concrete inputs. -/
theorem c2_cow_isolation_witness :
    (Supercow.deref cBorW 100 < memW.next)
    ∧ (¬ inSpan 200 (Supercow.deref cBorW 100))
    ∧ (¬ inSpan 300 (Supercow.deref cBorW 100))
    ∧ Supercow.derefVal (cowScenario BorrowStyle.externB true memW cBorW 200 300 9) cBorW 100
        = Supercow.derefVal memW cBorW 100 :=
  ⟨by decide, by decide, by decide,
    c2_cow_isolation BorrowStyle.externB true memW cBorW cBorW 200 300 100 9
      (by decide) (by decide) (by decide)⟩

/-- Witness for C3 at concrete inputs. -/
theorem c3_into_inner_take_ownership_witness :
    Supercow.metaOk cBorW 100
    ∧ Supercow.memOk memW cBorW 100
    ∧ Supercow.addrOk cBorW 100
    ∧ SupercowData.wfPlace cBorW.state 100
    ∧ (400 + sizeOfSelf ≤ USIZE)
    ∧ (¬ inSpan 400 memW.next)
    ∧ (memW.next < USIZE)
    ∧ (OwnedVal.value (Supercow.into_inner BorrowStyle.externB memW cBorW).1
          (Supercow.into_inner BorrowStyle.externB memW cBorW).2
        = Supercow.derefVal memW cBorW 100
      ∧ Supercow.derefVal (Supercow.take_ownership BorrowStyle.externB memW cBorW 400).1
          (Supercow.take_ownership BorrowStyle.externB memW cBorW 400).2 400
        = Supercow.derefVal memW cBorW 100) :=
  ⟨by decide, by decide, by decide, by decide, by decide, by decide, by decide,
    c3_into_inner_take_ownership BorrowStyle.externB memW cBorW 100 400
      (by decide) (by decide) (by decide) (by decide) (by decide) (by decide) (by decide)⟩

/-- Witness for C4 at concrete inputs. -/
theorem c4_traits_delegate_to_target_witness :
    Supercow.metaOk cInlW 100
    ∧ Supercow.memOk memW cInlW 100
    ∧ Supercow.addrOk cInlW 100
    ∧ Supercow.metaOk cBorW 200
    ∧ Supercow.memOk memW cBorW 200
    ∧ Supercow.addrOk cBorW 200
    ∧ (Supercow.scEq memW cInlW 100 cBorW 200
        = decide (SupercowData.value memW cInlW.state = SupercowData.value memW cBorW.state)
      ∧ Supercow.scCmp compare memW cInlW 100 cBorW 200
          = compare (SupercowData.value memW cInlW.state) (SupercowData.value memW cBorW.state)
      ∧ Supercow.scHash (fun v => v + 1) memW cInlW 100
          = SupercowData.value memW cInlW.state + 1
      ∧ Supercow.scFmt (fun v => toString v) memW cInlW 100
          = toString (SupercowData.value memW cInlW.state)) :=
  ⟨by decide, by decide, by decide, by decide, by decide, by decide,
    c4_traits_delegate_to_target compare (fun v => v + 1) (fun v => toString v) memW
      cInlW cBorW 100 200
      (by decide) (by decide) (by decide) (by decide) (by decide) (by decide)⟩

/-- Witness for C5 at concrete inputs. -/
theorem c5_branchfree_deref_refines_branchy_witness :
    (100 + sizeOfSelf ≤ USIZE)
    ∧ (200 + sizeOfSelf ≤ USIZE)
    ∧ SupercowData.wfPlace (SupercowData.Borrowed 500 : SupercowData Nat) 100
    ∧ (Supercow.set_ptr ⟨0, 0, (SupercowData.Borrowed 500 : SupercowData Nat)⟩ 100).deref 200
        = SupercowData.targetAddr (SupercowData.Borrowed 500 : SupercowData Nat) 200 :=
  ⟨by decide, by decide, by decide,
    c5_branchfree_deref_refines_branchy (SupercowData.Borrowed 500 : SupercowData Nat)
      100 200 (by decide) (by decide) (by decide)⟩

/-- Witness for C7 at concrete inputs. -/
theorem c7_relative_iff_inline_owned_witness :
    SupercowData.wfPlace (SupercowData.Owned (OwnedVal.inlineV (5 : Nat))) 100
    ∧ ((inSpan 100
          (SupercowData.targetAddr (SupercowData.Owned (OwnedVal.inlineV (5 : Nat))) 100)
        ↔ SupercowData.isInlineOwned (SupercowData.Owned (OwnedVal.inlineV (5 : Nat))) = true)
      ∧ ((Supercow.set_ptr ⟨0, 0, SupercowData.Owned (OwnedVal.inlineV (5 : Nat))⟩ 100).ptr_mask
            = USIZE - 1
        ↔ SupercowData.isInlineOwned (SupercowData.Owned (OwnedVal.inlineV (5 : Nat))) = true)
      ∧ ((Supercow.set_ptr ⟨0, 0, SupercowData.Owned (OwnedVal.inlineV (5 : Nat))⟩ 100).ptr_mask
            = 0
        ↔ SupercowData.isInlineOwned (SupercowData.Owned (OwnedVal.inlineV (5 : Nat))) = false)) :=
  ⟨by decide,
    c7_relative_iff_inline_owned (SupercowData.Owned (OwnedVal.inlineV (5 : Nat))) 100
      (by decide)⟩

/-- Witness for C9 at concrete inputs. -/
theorem c9_borrowed_shared_address_stability_witness :
    (¬ inSpan 100 500 ∧ 500 < USIZE)
    ∧ (¬ inSpan 100 600 ∧ 600 < USIZE)
    ∧ (((Supercow.borrowedCtor memW 500 100).2.deref 200 = 500
        ∧ (Supercow.borrowedCtor memW 500 100).2.deref 300 = 500)
      ∧ ((Supercow.sharedCtor memW 600 100).2.deref 200 = 600
        ∧ (Supercow.sharedCtor memW 600 100).2.deref 300 = 600)
      ∧ ((Supercow.clone memW (Supercow.borrowedCtor memW 500 100).2 400).2.state
            = SupercowData.Borrowed 500
        ∧ (Supercow.clone memW (Supercow.borrowedCtor memW 500 100).2 400).2.deref 200 = 500)
      ∧ ((Supercow.clone memW (Supercow.sharedCtor memW 600 100).2 400).2.state
            = SupercowData.Shared 600
        ∧ (Supercow.clone memW (Supercow.sharedCtor memW 600 100).2 400).2.deref 200 = 600)) :=
  ⟨by decide, by decide,
    c9_borrowed_shared_address_stability memW memW 500 600 100 200 300 400
      (by decide) (by decide)⟩

/-- Witness for C10 at concrete inputs. -/
theorem c10_cmp_against_any_deref_witness :
    Supercow.metaOk cBorW 100
    ∧ Supercow.memOk memW cBorW 100
    ∧ Supercow.addrOk cBorW 100
    ∧ (Supercow.scEqAny memW cBorW 100 700
        = decide (SupercowData.value memW cBorW.state = memW.data 700)
      ∧ Supercow.scPartialCmpAny (fun x y => some (compare x y)) memW cBorW 100 700
          = some (compare (SupercowData.value memW cBorW.state) (memW.data 700))) :=
  ⟨by decide, by decide, by decide,
    c10_cmp_against_any_deref (fun x y => some (compare x y)) memW cBorW 100 700
      (by decide) (by decide) (by decide)⟩
